import Mathlib

/-!
Verification of the IA-SINAIS-OB trading engine against its specification.

The Python sources are shallowly embedded: currency amounts are modelled as
exact rationals (`ℚ`), times of day as minutes after midnight (`ℕ`), Unix
timestamps as seconds (`ℕ`).  Each definition mirrors one Python function of
the repository; the theorems at the end of the file settle the claims.
-/

namespace TradingEngine

/-- Python's `round` ties-to-even on an exact rational, returning an integer. -/
def pyRound (q : ℚ) : ℤ :=
  let f := Rat.floor q
  let r := q - f
  if r < 1/2 then f
  else if 1/2 < r then f + 1
  else if f % 2 = 0 then f else f + 1

/-- `Rat.floor` agrees with the floor of the archimedean order on `ℚ`. -/
theorem ratFloor_eq_floor (q : ℚ) : Rat.floor q = ⌊q⌋ := by
  rw [Rat.floor_def', Rat.floor_def]

/-- `round(x, 2)` from Python: round to two decimal places, ties to even. -/
def round2 (q : ℚ) : ℚ := (pyRound (q * 100) : ℚ) / 100

/-! ## Martingale ledger (`test_martingale_targets.py`, `MockTradingBot`) -/

/-- Configuration fields consumed by `MockTradingBot` in
`test_martingale_targets.py`. -/
structure TMConfig where
  take_profit : ℚ
  stop_loss : ℚ
  martingale_enabled : Bool
  max_martingale_levels : ℕ
  martingale_multiplier : ℚ
  use_balance_percentage : Bool
  balance_percentage : ℚ
  trade_amount : ℚ
deriving DecidableEq

/-- Mutable bot state of `MockTradingBot` in `test_martingale_targets.py`. -/
structure TMBotState where
  session_profit : ℚ
  session_trades : ℕ
  martingale_level : ℕ
  consecutive_losses : ℕ
  initial_balance : ℚ
  current_balance : ℚ
deriving DecidableEq

/-- `MockTradingBot._calculate_trade_amount` (test_martingale_targets.py
lines 41-55): base stake is the fixed amount or a live-balance percentage;
the martingale multiplier is applied when `martingale_level > 0`; the result
is rounded to two decimals. -/
def calculateTradeAmount (cfg : TMConfig) (st : TMBotState) : ℚ :=
  let base :=
    if cfg.use_balance_percentage then
      st.current_balance * (cfg.balance_percentage / 100)
    else cfg.trade_amount
  let amount :=
    if st.martingale_level > 0 then
      base * cfg.martingale_multiplier ^ st.martingale_level
    else base
  round2 amount

/-- The string results returned by
`MockTradingBot.simulate_trade_result` in `test_martingale_targets.py`. -/
inductive TradeResult where
  | takeProfitReached
  | continueMartingale
  | stopLossReached
  | continueNormal
deriving DecidableEq

/-- Outcome of one `simulate_trade_result` call: the updated bot state, the
returned string, and whether the exhausted-martingale branch (the `else` of
the martingale-progression test, which logs "níveis de Martingale esgotados"
and resets the level) was taken. -/
structure TMStep where
  state : TMBotState
  result : TradeResult
  exhausted : Bool
deriving DecidableEq

/-- `MockTradingBot.simulate_trade_result` (test_martingale_targets.py
lines 57-121): apply the trade profit/loss, then on a win reset the
martingale and check take profit, on a loss advance the martingale or, once
exhausted, reset the level and check the percentage stop loss. -/
def simulateTradeResult (cfg : TMConfig) (st : TMBotState)
    (win : Bool) (payout : ℚ) : TMStep :=
  let amount := calculateTradeAmount cfg st
  let profit := if win then amount * (payout / 100) else -amount
  let st1 : TMBotState :=
    { st with
      session_trades := st.session_trades + 1
      session_profit := st.session_profit + profit
      current_balance := st.current_balance + profit }
  if win then
    let st2 : TMBotState := { st1 with martingale_level := 0, consecutive_losses := 0 }
    let tpValue := st2.initial_balance * (cfg.take_profit / 100)
    if st2.session_profit ≥ tpValue then ⟨st2, .takeProfitReached, false⟩
    else ⟨st2, .continueNormal, false⟩
  else
    let st2 : TMBotState := { st1 with consecutive_losses := st1.consecutive_losses + 1 }
    if cfg.martingale_enabled ∧ st2.martingale_level < cfg.max_martingale_levels then
      let st3 : TMBotState := { st2 with martingale_level := st2.martingale_level + 1 }
      if st3.martingale_level ≤ cfg.max_martingale_levels then ⟨st3, .continueMartingale, false⟩
      else ⟨st3, .continueNormal, false⟩
    else
      let st3 : TMBotState := { st2 with martingale_level := 0 }
      let slValue := st3.initial_balance * (cfg.stop_loss / 100)
      if st3.session_profit ≤ -slValue then ⟨st3, .stopLossReached, true⟩
      else ⟨st3, .continueNormal, true⟩

/-! ## Stop-loss / auto-restart bot (`test_stop_loss_auto_restart.py`) -/

/-- Configuration of `MockTradingConfig` in `test_stop_loss_auto_restart.py`. -/
structure SLConfig where
  take_profit : ℚ
  stop_loss : ℚ
  martingale_enabled : Bool
  max_martingale_levels : ℕ
  auto_mode : Bool
  auto_restart : Bool
  continuous_mode : Bool
  entry_amount : ℚ
  martingale_multiplier : ℚ
deriving DecidableEq

/-- Mutable state of `StopLossAutoRestartBot`. -/
structure SLState where
  session_profit : ℚ
  session_trades : ℕ
  martingale_level : ℕ
  consecutive_losses : ℕ
  session_restarted : Bool
  initial_balance : ℚ
deriving DecidableEq

/-- `StopLossAutoRestartBot._calculate_trade_amount`
(test_stop_loss_auto_restart.py lines 63-72): at level 0 the fixed entry
amount; otherwise the entry amount multiplied by the martingale multiplier
once per level, with no rounding. -/
def calculateTradeAmountSL (cfg : SLConfig) (st : SLState) : ℚ :=
  if st.martingale_level = 0 then cfg.entry_amount
  else
    (List.range st.martingale_level).foldl
      (fun acc _ => acc * cfg.martingale_multiplier) cfg.entry_amount

/-- `StopLossAutoRestartBot._reset_session_for_restart`
(test_stop_loss_auto_restart.py lines 78-94): zero the session statistics
and keep the bot running. -/
def resetSessionForRestart (st : SLState) : SLState :=
  { st with
    session_profit := 0
    session_trades := 0
    martingale_level := 0
    consecutive_losses := 0
    session_restarted := true }

/-- Notification events emitted by `_send_target_notification`. -/
inductive TargetEvent where
  | takeProfitReached
  | stopLossReached
deriving DecidableEq

/-- Outcome of one `StopLossAutoRestartBot.simulate_trade_result` call:
the updated state, the returned boolean (keep trading?) and the
notification sent, if any. -/
structure SLStep where
  state : SLState
  keepTrading : Bool
  notified : Option TargetEvent
deriving DecidableEq

/-- `StopLossAutoRestartBot.simulate_trade_result`
(test_stop_loss_auto_restart.py lines 96-178): apply the 85%-payout win or
the full loss, advance or reset the martingale, and on a reached target
either reset the session and keep going (auto mode with auto-restart and
continuous mode) or stop. -/
def simulateTradeResultSL (cfg : SLConfig) (st : SLState) (win : Bool) : SLStep :=
  let amount := calculateTradeAmountSL cfg st
  let st1 : SLState := { st with session_trades := st.session_trades + 1 }
  if win then
    let profit := amount * (85 / 100)
    let st2 : SLState :=
      { st1 with
        session_profit := st1.session_profit + profit
        martingale_level := 0
        consecutive_losses := 0 }
    let tpValue := st2.initial_balance * (cfg.take_profit / 100)
    if st2.session_profit ≥ tpValue then
      if cfg.auto_mode ∧ cfg.auto_restart ∧ cfg.continuous_mode then
        ⟨resetSessionForRestart st2, true, some .takeProfitReached⟩
      else ⟨st2, false, some .takeProfitReached⟩
    else ⟨st2, true, none⟩
  else
    let st2 : SLState :=
      { st1 with
        session_profit := st1.session_profit + -amount
        consecutive_losses := st1.consecutive_losses + 1 }
    if cfg.martingale_enabled ∧ st2.martingale_level < cfg.max_martingale_levels then
      ⟨{ st2 with martingale_level := st2.martingale_level + 1 }, true, none⟩
    else
      let st3 : SLState := { st2 with martingale_level := 0 }
      let slValue := st3.initial_balance * (cfg.stop_loss / 100)
      if st3.session_profit ≤ -slValue then
        if cfg.auto_mode ∧ cfg.auto_restart ∧ cfg.continuous_mode then
          ⟨resetSessionForRestart st3, true, some .stopLossReached⟩
        else ⟨st3, false, some .stopLossReached⟩
      else ⟨st3, true, none⟩

/-! ## Trading-continuation check (`test_simple_automatic_mode.py`,
`MockTradingBot._should_continue_trading`) -/

/-- Configuration fields consumed by `_should_continue_trading`. -/
structure SCConfig where
  auto_mode : Bool
  take_profit : ℚ
  stop_loss : ℚ
deriving DecidableEq

/-- State read by `_should_continue_trading`: the stop event, the
martingale level and the session profit. -/
structure SCState where
  stopEventSet : Bool
  martingale_level : ℕ
  session_profit : ℚ
  initial_balance : ℚ
deriving DecidableEq

/-- Instrumented result of `_should_continue_trading`: the returned
boolean, the stop event after the call, and whether the take-profit and
stop-loss comparisons were reached in the control flow. -/
structure SCResult where
  keepTrading : Bool
  stopEventSet : Bool
  tpEvaluated : Bool
  slEvaluated : Bool
deriving DecidableEq

/-- `MockTradingBot._should_continue_trading`
(test_simple_automatic_mode.py lines 67-110): return false at once if the
stop event is set; keep trading unconditionally while the martingale level
is positive; otherwise compare the session profit against the rebased
take-profit and stop-loss thresholds, pausing (auto mode) or setting the
stop event (manual mode) when one is reached. -/
def shouldContinueTrading (cfg : SCConfig) (st : SCState) : SCResult :=
  if st.stopEventSet then ⟨false, st.stopEventSet, false, false⟩
  else if st.martingale_level > 0 then ⟨true, st.stopEventSet, false, false⟩
  else
    let tpValue := st.initial_balance * (cfg.take_profit / 100)
    if st.session_profit ≥ tpValue then
      if cfg.auto_mode then ⟨false, st.stopEventSet, true, false⟩
      else ⟨false, true, true, false⟩
    else
      let slValue := st.initial_balance * (cfg.stop_loss / 100)
      if st.session_profit ≤ -slValue then
        if cfg.auto_mode then ⟨false, st.stopEventSet, true, true⟩
        else ⟨false, true, true, true⟩
      else ⟨true, st.stopEventSet, true, true⟩

/-! ## Session-time check (`test_simple_automatic_mode.py`,
`MockTradingBot._is_in_session_time`) -/

/-- The six configured session boundaries, as minutes after midnight. -/
structure SessionTimesConfig where
  morning_start : ℕ
  morning_end : ℕ
  afternoon_start : ℕ
  afternoon_end : ℕ
  night_start : ℕ
  night_end : ℕ
deriving DecidableEq

/-- The final window test of `_is_in_session_time`
(test_simple_automatic_mode.py lines 128-132): inside `[start, end]` when
the window does not cross midnight, otherwise after the start or before
the end. -/
def sessionWindowCheck (startT endT now : ℕ) : Bool :=
  if startT ≤ endT then startT ≤ now ∧ now ≤ endT
  else now ≥ startT ∨ now ≤ endT

/-- `MockTradingBot._is_in_session_time`
(test_simple_automatic_mode.py lines 112-132): select the configured
start and end for the named session (false for an unknown name) and test
the current time of day against that window. -/
def isInSessionTime (cfg : SessionTimesConfig) (sessionType : String) (now : ℕ) : Bool :=
  if sessionType = "morning" then
    sessionWindowCheck cfg.morning_start cfg.morning_end now
  else if sessionType = "afternoon" then
    sessionWindowCheck cfg.afternoon_start cfg.afternoon_end now
  else if sessionType = "night" then
    sessionWindowCheck cfg.night_start cfg.night_end now
  else false

/-! ## Pause system (`test_pause_system_fix.py`, `MockTradingBot`) -/

/-- Configuration fields consumed by the pause-system mock. -/
structure PFConfig where
  auto_mode : Bool
  take_profit : ℚ
  max_martingale_levels : ℕ
deriving DecidableEq

/-- State of the pause-system mock: profit, martingale level, and the two
flags set by `_pause_until_next_session` and `_schedule_stop`. -/
structure PFState where
  session_profit : ℚ
  martingale_level : ℕ
  initial_balance : ℚ
  paused : Bool
  stopped : Bool
deriving DecidableEq

/-- `MockTradingBot.simulate_take_profit_reached`
(test_pause_system_fix.py lines 95-118): set the session profit just above
the take-profit threshold, then pause in auto mode or schedule a stop in
manual mode. -/
def simulateTakeProfitReached (cfg : PFConfig) (st : PFState) : PFState :=
  let tpValue := st.initial_balance * (cfg.take_profit / 100)
  let st1 : PFState := { st with session_profit := tpValue + 1 }
  if st1.session_profit ≥ tpValue then
    if cfg.auto_mode then { st1 with paused := true }
    else { st1 with stopped := true }
  else st1

/-- `MockTradingBot.simulate_stop_loss_reached`
(test_pause_system_fix.py lines 120-150): simulate the loss of every
martingale level, reset the level, then pause in auto mode or schedule a
stop in manual mode. -/
def simulateStopLossReached (cfg : PFConfig) (st : PFState) : PFState :=
  let st1 : PFState :=
    { st with martingale_level := cfg.max_martingale_levels, session_profit := -100 }
  let st2 : PFState := { st1 with martingale_level := 0 }
  if cfg.auto_mode then { st2 with paused := true }
  else { st2 with stopped := true }

/-! ## Next scheduled session (`routes.py`, `get_next_schedule`) -/

/-- Ordering of session entries by start time, used for
`sessions.sort(key=lambda x: x[1])` in `get_next_schedule`. -/
def sessLE (a b : String × ℕ) : Prop := a.2 ≤ b.2

instance : DecidableRel sessLE := fun a b => Nat.decLe a.2 b.2

instance : IsTotal (String × ℕ) sessLE := ⟨fun a b => Nat.le_total a.2 b.2⟩

instance : IsTrans (String × ℕ) sessLE := ⟨fun _ _ _ h h' => Nat.le_trans h h'⟩

/-- The per-user configuration fields read by `get_next_schedule`:
operating mode, optional session start times (minutes after midnight) and
session enable flags. -/
structure ScheduleConfig where
  operation_mode : String
  morning_start : Option ℕ
  afternoon_start : Option ℕ
  night_start : Option ℕ
  morning_enabled : Bool
  afternoon_enabled : Bool
  night_enabled : Bool
deriving DecidableEq

/-- The list of candidate sessions built by `get_next_schedule`
(routes.py lines 1232-1244): each session is included when its start time
is configured and its enable flag is set. -/
def scheduleSessions (cfg : ScheduleConfig) : List (String × ℕ) :=
  (match cfg.morning_start with
   | some t => if cfg.morning_enabled then [("morning", t)] else []
   | none => []) ++
  (match cfg.afternoon_start with
   | some t => if cfg.afternoon_enabled then [("afternoon", t)] else []
   | none => []) ++
  (match cfg.night_start with
   | some t => if cfg.night_enabled then [("night", t)] else []
   | none => [])

/-- Result of `get_next_schedule`: a session later today, the first
session tomorrow, or no scheduled session. -/
inductive NextSchedule where
  | today (s : String × ℕ)
  | tomorrow (s : String × ℕ)
  | notScheduled
deriving DecidableEq

/-- `get_next_schedule` (routes.py lines 1221-1262): when the operating
mode is `auto`, sort the enabled sessions ascending by start time, return
the first whose start is strictly after the current time today, else the
first session of the sorted list for tomorrow, else nothing. -/
def getNextSchedule (cfg : ScheduleConfig) (now : ℕ) : NextSchedule :=
  if cfg.operation_mode ≠ "auto" then .notScheduled
  else
    match ((scheduleSessions cfg).insertionSort sessLE).find? (fun s => now < s.2) with
    | some s => .today s
    | none =>
      match (scheduleSessions cfg).insertionSort sessLE with
      | [] => .notScheduled
      | s :: _ => .tomorrow s

/-! ## Connection-failure tracking (`routes.py` lines 97-149) -/

/-- The `connection_failures` entry for one user: the failure count and
the Unix time of the last failure; `none` when the user has no entry. -/
def ConnState := Option (ℕ × ℕ)

instance : DecidableEq ConnState := inferInstanceAs (DecidableEq (Option (ℕ × ℕ)))

/-- `MAX_FAILURES` (routes.py line 100). -/
def MAX_FAILURES : ℕ := 3

/-- `FAILURE_COOLDOWN` (routes.py line 99), in seconds. -/
def FAILURE_COOLDOWN : ℕ := 600

/-- `should_skip_connection` (routes.py lines 122-134): skip when the
user has at least `MAX_FAILURES` recorded failures and the last failure is
less than `FAILURE_COOLDOWN` seconds old; once the cooldown has elapsed
the entry is deleted and the connection is attempted again. Returns the
decision together with the updated entry. -/
def shouldSkipConnection (st : ConnState) (now : ℕ) : Bool × ConnState :=
  match st with
  | none => (false, none)
  | some (count, lastFailure) =>
    if MAX_FAILURES ≤ count then
      if now - lastFailure < FAILURE_COOLDOWN then (true, some (count, lastFailure))
      else (false, none)
    else (false, some (count, lastFailure))

/-- `record_connection_failure` (routes.py lines 136-143): create the
entry at count 0 if absent, then increment the count and stamp the
failure time. -/
def recordConnectionFailure (st : ConnState) (now : ℕ) : ConnState :=
  match st with
  | none => some (0 + 1, now)
  | some (count, _) => some (count + 1, now)

/-- `record_connection_success` (routes.py lines 145-149): delete the
user's failure entry. -/
def recordConnectionSuccess (_st : ConnState) : ConnState := none

/-! ## Configuration save and bot start (`routes.py`, `save_config` and
`start_bot`) -/

/-- The stored `TradingConfig` fields modelled here: the operating mode,
its mirrored boolean, and representative validated fields. -/
structure StoredConfig where
  operation_mode : String
  auto_mode : Bool
  trade_amount : ℚ
  take_profit : ℚ
  martingale_enabled : Bool
deriving DecidableEq

/-- A `save_config` request body: absent keys fall back to the stored
configuration (routes.py lines 587-609). -/
structure ConfigRequest where
  operation_mode : Option String
  trade_amount : Option ℚ
  take_profit : Option ℚ
  martingale_enabled : Option Bool
deriving DecidableEq

/-- The bounds checked by `validate_trading_config` (schemas.py) for the
fields modelled here: `trade_amount` in (0, 10000], `take_profit` in
[1, 1000]. -/
def validConfigData (trade_amount take_profit : ℚ) : Bool :=
  0 < trade_amount ∧ trade_amount ≤ 10000 ∧ 1 ≤ take_profit ∧ take_profit ≤ 1000

/-- `save_config` (routes.py lines 560-695) restricted to the modelled
fields: merge the request over the stored values, validate, update the
regular fields, accept `operation_mode` only when it is `auto` or
`manual`, then synchronize `auto_mode` with the resulting
`operation_mode` (lines 649-658). Returns `none` when validation fails
(the stored configuration is then unchanged). -/
def saveConfig (prior : StoredConfig) (req : ConfigRequest) : Option StoredConfig :=
  let ta := req.trade_amount.getD prior.trade_amount
  let tp := req.take_profit.getD prior.take_profit
  let me := req.martingale_enabled.getD prior.martingale_enabled
  if validConfigData ta tp then
    let cfg1 : StoredConfig :=
      { prior with trade_amount := ta, take_profit := tp, martingale_enabled := me }
    let om := req.operation_mode.getD prior.operation_mode
    let cfg2 : StoredConfig :=
      if om = "auto" ∨ om = "manual" then { cfg1 with operation_mode := om } else cfg1
    let cfg3 : StoredConfig :=
      if cfg2.operation_mode = "auto" then { cfg2 with auto_mode := true }
      else if cfg2.operation_mode = "manual" then { cfg2 with auto_mode := false }
      else cfg2
    some cfg3
  else none

/-- The `auto_mode` synchronization performed by `start_bot`
(routes.py lines 711-719) before launching the bot. -/
def startBotSync (cfg : StoredConfig) : StoredConfig :=
  if cfg.operation_mode = "auto" ∧ ¬cfg.auto_mode then { cfg with auto_mode := true }
  else if cfg.operation_mode = "manual" ∧ cfg.auto_mode then { cfg with auto_mode := false }
  else cfg

/-! ## Helper lemmas -/

/-- Repeated multiplication over `List.range` is a power. -/
theorem foldl_mul_range (e m : ℚ) (n : ℕ) :
    (List.range n).foldl (fun acc _ => acc * m) e = e * m ^ n := by
  induction n with
  | zero => simp
  | succ k ih => rw [List.range_succ, List.foldl_append, ih, List.foldl_cons,
      List.foldl_nil, pow_succ, mul_assoc]

/-- `calculateTradeAmountSL` in closed form: the fixed entry amount times
the multiplier to the martingale level. -/
theorem calculateTradeAmountSL_eq (cfg : SLConfig) (st : SLState) :
    calculateTradeAmountSL cfg st =
      cfg.entry_amount * cfg.martingale_multiplier ^ st.martingale_level := by
  unfold calculateTradeAmountSL
  split
  · next h => rw [h, pow_zero, mul_one]
  · exact foldl_mul_range _ _ _

/-- The head of a `sessLE`-sorted list has the least start time. -/
theorem sorted_head_min {l : List (String × ℕ)} {a : String × ℕ}
    (h : List.Sorted sessLE (a :: l)) : ∀ t ∈ a :: l, a.2 ≤ t.2 := by
  intro t ht
  rcases List.mem_cons.mp ht with rfl | ht
  · exact Nat.le_refl _
  · exact (List.sorted_cons.mp h).1 t ht

/-- In a `sessLE`-sorted list, the first entry whose start time is
strictly after `now` has the least start time among all such entries. -/
theorem find_min_of_sorted {l : List (String × ℕ)} (hs : List.Sorted sessLE l)
    {now : ℕ} {s : String × ℕ}
    (hf : l.find? (fun t => now < t.2) = some s) :
    s ∈ l ∧ now < s.2 ∧ ∀ t ∈ l, now < t.2 → s.2 ≤ t.2 := by
  induction l with
  | nil => simp at hf
  | cons a l ih =>
    by_cases hc : now < a.2
    · simp [List.find?, hc] at hf
      obtain rfl : a = s := hf
      exact ⟨List.mem_cons_self a l, hc, fun t ht _ => sorted_head_min hs t ht⟩
    · simp [List.find?, hc] at hf
      obtain ⟨hmem, hlt, hmin⟩ := ih (List.sorted_cons.mp hs).2 hf
      refine ⟨List.mem_cons_of_mem a hmem, hlt, fun t ht hlt' => ?_⟩
      rcases List.mem_cons.mp ht with rfl | ht
      · exact absurd hlt' hc
      · exact hmin t ht hlt'

/-! ## Claim theorems -/

/-- Claim C3: on a win the ledger unconditionally resets the martingale
level and the consecutive-loss count to 0; on a loss with martingale
enabled and level below the maximum it increments the level by exactly 1
and reports `continue_martingale`; on a loss at the maximum level or with
martingale disabled it resets the level to 0 and takes the
exhausted-martingale branch. -/
theorem C3_martingale_ledger_transitions (cfg : TMConfig) (st : TMBotState)
    (win : Bool) (payout : ℚ) :
    (win = true →
      (simulateTradeResult cfg st win payout).state.martingale_level = 0 ∧
      (simulateTradeResult cfg st win payout).state.consecutive_losses = 0) ∧
    (win = false → cfg.martingale_enabled = true →
      st.martingale_level < cfg.max_martingale_levels →
      (simulateTradeResult cfg st win payout).state.martingale_level =
        st.martingale_level + 1 ∧
      (simulateTradeResult cfg st win payout).result =
        TradeResult.continueMartingale ∧
      (simulateTradeResult cfg st win payout).exhausted = false) ∧
    (win = false →
      ¬(cfg.martingale_enabled = true ∧
        st.martingale_level < cfg.max_martingale_levels) →
      (simulateTradeResult cfg st win payout).state.martingale_level = 0 ∧
      (simulateTradeResult cfg st win payout).exhausted = true) := by
  refine ⟨?_, ?_, ?_⟩
  · rintro rfl
    simp only [simulateTradeResult, if_true]
    split <;> exact ⟨rfl, rfl⟩
  · rintro rfl h2 h3
    simp only [simulateTradeResult, Bool.false_eq_true, if_false]
    rw [if_pos ⟨h2, h3⟩, if_pos (Nat.succ_le_of_lt h3)]
    exact ⟨rfl, rfl, rfl⟩
  · rintro rfl h2
    simp only [simulateTradeResult, Bool.false_eq_true, if_false]
    rw [if_neg h2]
    split <;> exact ⟨rfl, rfl⟩

/-- Witness for C3: a win at level 2 resets level and losses; a loss at
level 1 (max 3) continues at level 2; a loss at level 3 exhausts and
resets. -/
theorem C3_witness :
    ((simulateTradeResult ⟨70, 30, true, 3, 2, false, 0, 10⟩
        ⟨0, 0, 2, 2, 1000, 1000⟩ true 85).state.martingale_level = 0 ∧
      (simulateTradeResult ⟨70, 30, true, 3, 2, false, 0, 10⟩
        ⟨0, 0, 2, 2, 1000, 1000⟩ true 85).state.consecutive_losses = 0) ∧
    ((simulateTradeResult ⟨70, 30, true, 3, 2, false, 0, 10⟩
        ⟨0, 0, 1, 1, 1000, 1000⟩ false 85).state.martingale_level = 1 + 1 ∧
      (simulateTradeResult ⟨70, 30, true, 3, 2, false, 0, 10⟩
        ⟨0, 0, 1, 1, 1000, 1000⟩ false 85).result =
        TradeResult.continueMartingale ∧
      (simulateTradeResult ⟨70, 30, true, 3, 2, false, 0, 10⟩
        ⟨0, 0, 1, 1, 1000, 1000⟩ false 85).exhausted = false) ∧
    ((simulateTradeResult ⟨70, 30, true, 3, 2, false, 0, 10⟩
        ⟨0, 0, 3, 3, 1000, 1000⟩ false 85).state.martingale_level = 0 ∧
      (simulateTradeResult ⟨70, 30, true, 3, 2, false, 0, 10⟩
        ⟨0, 0, 3, 3, 1000, 1000⟩ false 85).exhausted = true) :=
  ⟨(C3_martingale_ledger_transitions _ _ true 85).1 rfl,
   (C3_martingale_ledger_transitions _ _ false 85).2.1 rfl rfl (by decide),
   (C3_martingale_ledger_transitions _ _ false 85).2.2 rfl (by decide)⟩

/-- Claim C4: the computed stake is the base stake (fixed amount, or the
configured percentage of the live balance) times the multiplier raised to
the martingale level, rounded to two decimals; in the second
implementation the same product is computed exactly by repeated
multiplication; with base 20 and multiplier 2.2 the stakes at levels
0..3 are 20, 44, 96.80 and 212.96. -/
theorem C4_compute_stake :
    (∀ (cfg : TMConfig) (st : TMBotState),
      calculateTradeAmount cfg st =
        round2 ((if cfg.use_balance_percentage = true then
            st.current_balance * (cfg.balance_percentage / 100)
          else cfg.trade_amount) *
          cfg.martingale_multiplier ^ st.martingale_level)) ∧
    (∀ (cfg : SLConfig) (st : SLState),
      calculateTradeAmountSL cfg st =
        cfg.entry_amount * cfg.martingale_multiplier ^ st.martingale_level) ∧
    calculateTradeAmount ⟨70, 30, true, 3, 2.2, false, 0, 20⟩
      ⟨0, 0, 0, 0, 1000, 1000⟩ = 20 ∧
    calculateTradeAmount ⟨70, 30, true, 3, 2.2, false, 0, 20⟩
      ⟨0, 0, 1, 0, 1000, 1000⟩ = 44 ∧
    calculateTradeAmount ⟨70, 30, true, 3, 2.2, false, 0, 20⟩
      ⟨0, 0, 2, 0, 1000, 1000⟩ = 96.80 ∧
    calculateTradeAmount ⟨70, 30, true, 3, 2.2, false, 0, 20⟩
      ⟨0, 0, 3, 0, 1000, 1000⟩ = 212.96 := by
  refine ⟨?_, calculateTradeAmountSL_eq, ?_, ?_, ?_, ?_⟩
  · intro cfg st
    simp only [calculateTradeAmount]
    by_cases h : 0 < st.martingale_level
    · simp [h]
    · rw [Nat.eq_zero_of_not_pos h]
      simp
  all_goals norm_num [calculateTradeAmount, round2, pyRound, Rat.floor_def']

/-- Counterexample to claim C1 as stated: with the stop event already set
and martingale level 1, `_should_continue_trading` returns false, so the
check does not return true for *every* state with level > 0. -/
theorem C1_counterexample :
    (⟨true, 1, 0, 1000⟩ : SCState).martingale_level > 0 ∧
    (shouldContinueTrading ⟨true, 5, 10⟩ ⟨true, 1, 0, 1000⟩).keepTrading = false :=
  ⟨Nat.zero_lt_one, rfl⟩

/-- Claim C1 (amended): provided the stop event is not set, whenever the
martingale level is positive `_should_continue_trading` returns true
without reaching the take-profit or stop-loss comparison; and the
take-profit and stop-loss comparisons are reached only when the
martingale level is 0. -/
theorem C1_amended_no_targets_during_martingale :
    (∀ (cfg : SCConfig) (st : SCState), st.stopEventSet = false →
      st.martingale_level > 0 →
      (shouldContinueTrading cfg st).keepTrading = true ∧
      (shouldContinueTrading cfg st).tpEvaluated = false ∧
      (shouldContinueTrading cfg st).slEvaluated = false) ∧
    (∀ (cfg : SCConfig) (st : SCState),
      ((shouldContinueTrading cfg st).tpEvaluated = true ∨
        (shouldContinueTrading cfg st).slEvaluated = true) →
      st.martingale_level = 0) := by
  constructor
  · intro cfg st h1 h2
    simp [shouldContinueTrading, h1, h2]
  · intro cfg st h
    by_contra hne
    have hpos : st.martingale_level > 0 := Nat.pos_of_ne_zero hne
    cases hst : st.stopEventSet with
    | true =>
      simp only [shouldContinueTrading, hst, if_true] at h
      rcases h with h | h <;> simp at h
    | false =>
      simp only [shouldContinueTrading, hst, Bool.false_eq_true, if_false,
        if_pos hpos] at h
      rcases h with h | h <;> simp at h

/-- Witness for the amended C1: at level 2 with the stop event clear the
check keeps trading without evaluating targets; a state where the
take-profit comparison is reached has level 0. -/
theorem C1_witness :
    ((shouldContinueTrading ⟨true, 5, 10⟩ ⟨false, 2, (-100), 1000⟩).keepTrading = true ∧
      (shouldContinueTrading ⟨true, 5, 10⟩ ⟨false, 2, (-100), 1000⟩).tpEvaluated = false ∧
      (shouldContinueTrading ⟨true, 5, 10⟩ ⟨false, 2, (-100), 1000⟩).slEvaluated = false) ∧
    (⟨false, 0, 50, 1000⟩ : SCState).martingale_level = 0 :=
  ⟨(C1_amended_no_targets_during_martingale.1 ⟨true, 5, 10⟩
      ⟨false, 2, (-100), 1000⟩ rfl (by decide)),
   (C1_amended_no_targets_during_martingale.2 ⟨true, 5, 10⟩ ⟨false, 0, 50, 1000⟩
      (Or.inl (by norm_num [shouldContinueTrading])))⟩

/-- Counterexample to claim C2 as stated: four consecutive losses from a
fresh $1000 session (fixed stake 10, multiplier 2, max level 3, stop-loss
30%) reach the exhausted state on the fourth loss, yet the result is
`continue`, not `stop_loss_reached`, because the accumulated loss of $150
does not reach the $300 stop-loss threshold. -/
theorem C2_counterexample :
    simulateTradeResult ⟨70, 30, true, 3, 2, false, 0, 10⟩
      ⟨0, 0, 0, 0, 1000, 1000⟩ false 85 =
      ⟨⟨-10, 1, 1, 1, 1000, 990⟩, TradeResult.continueMartingale, false⟩ ∧
    simulateTradeResult ⟨70, 30, true, 3, 2, false, 0, 10⟩
      ⟨-10, 1, 1, 1, 1000, 990⟩ false 85 =
      ⟨⟨-30, 2, 2, 2, 1000, 970⟩, TradeResult.continueMartingale, false⟩ ∧
    simulateTradeResult ⟨70, 30, true, 3, 2, false, 0, 10⟩
      ⟨-30, 2, 2, 2, 1000, 970⟩ false 85 =
      ⟨⟨-70, 3, 3, 3, 1000, 930⟩, TradeResult.continueMartingale, false⟩ ∧
    simulateTradeResult ⟨70, 30, true, 3, 2, false, 0, 10⟩
      ⟨-70, 3, 3, 3, 1000, 930⟩ false 85 =
      ⟨⟨-150, 4, 0, 4, 1000, 850⟩, TradeResult.continueNormal, true⟩ ∧
    (simulateTradeResult ⟨70, 30, true, 3, 2, false, 0, 10⟩
      ⟨-70, 3, 3, 3, 1000, 930⟩ false 85).exhausted = true ∧
    (simulateTradeResult ⟨70, 30, true, 3, 2, false, 0, 10⟩
      ⟨-70, 3, 3, 3, 1000, 930⟩ false 85).result ≠
      TradeResult.stopLossReached := by
  have hstep : simulateTradeResult ⟨70, 30, true, 3, 2, false, 0, 10⟩
      ⟨-70, 3, 3, 3, 1000, 930⟩ false 85 =
      ⟨⟨-150, 4, 0, 4, 1000, 850⟩, TradeResult.continueNormal, true⟩ := by
    norm_num [simulateTradeResult, calculateTradeAmount, round2, pyRound,
      Rat.floor_def', TMStep.mk.injEq, TMBotState.mk.injEq]
  refine ⟨?_, ?_, ?_, hstep, by rw [hstep], by rw [hstep]; decide⟩ <;>
    norm_num [simulateTradeResult, calculateTradeAmount, round2, pyRound,
      Rat.floor_def', TMStep.mk.injEq, TMBotState.mk.injEq]

/-- Claim C2 (amended): a loss in the exhausted state (level at the
maximum, or martingale disabled) resets the level to 0 and reports the
stop condition if and only if the resulting session profit is at or below
minus the configured stop-loss percentage of the initial balance;
exhaustion is necessary for the stop decision but not sufficient — the
stop-loss percentage decides it. -/
theorem C2_amended_stop_requires_percentage (cfg : TMConfig)
    (st : TMBotState) (payout : ℚ) :
    (¬(cfg.martingale_enabled = true ∧
        st.martingale_level < cfg.max_martingale_levels) →
      (simulateTradeResult cfg st false payout).exhausted = true ∧
      (simulateTradeResult cfg st false payout).state.martingale_level = 0 ∧
      ((simulateTradeResult cfg st false payout).result =
          TradeResult.stopLossReached ↔
        (simulateTradeResult cfg st false payout).state.session_profit ≤
          -(st.initial_balance * (cfg.stop_loss / 100)))) ∧
    ((simulateTradeResult cfg st false payout).result =
        TradeResult.stopLossReached →
      (simulateTradeResult cfg st false payout).exhausted = true) := by
  constructor
  · intro h
    simp only [simulateTradeResult, Bool.false_eq_true, if_false]
    rw [if_neg h]
    split
    · next hsl => exact ⟨rfl, rfl, Iff.intro (fun _ => hsl) (fun _ => rfl)⟩
    · next hsl =>
      refine ⟨rfl, rfl, Iff.intro (fun hh => ?_) (fun hle => absurd hle hsl)⟩
      exact nomatch hh
  · intro h
    by_cases hc : cfg.martingale_enabled = true ∧
        st.martingale_level < cfg.max_martingale_levels
    · exfalso
      simp only [simulateTradeResult, Bool.false_eq_true, if_false] at h
      rw [if_pos hc] at h
      split at h <;> simp at h
    · simp only [simulateTradeResult, Bool.false_eq_true, if_false]
      rw [if_neg hc]
      split <;> rfl

/-- Witness for the amended C2: the fourth consecutive loss of the
counterexample scenario exhausts the martingale (level reset to 0), and
the stop decision is exactly the $300 percentage comparison. -/
theorem C2_witness :
    (simulateTradeResult ⟨70, 30, true, 3, 2, false, 0, 10⟩
      ⟨-70, 3, 3, 3, 1000, 930⟩ false 85).exhausted = true ∧
    (simulateTradeResult ⟨70, 30, true, 3, 2, false, 0, 10⟩
      ⟨-70, 3, 3, 3, 1000, 930⟩ false 85).state.martingale_level = 0 ∧
    ((simulateTradeResult ⟨70, 30, true, 3, 2, false, 0, 10⟩
        ⟨-70, 3, 3, 3, 1000, 930⟩ false 85).result =
        TradeResult.stopLossReached ↔
      (simulateTradeResult ⟨70, 30, true, 3, 2, false, 0, 10⟩
        ⟨-70, 3, 3, 3, 1000, 930⟩ false 85).state.session_profit ≤
        -((1000 : ℚ) * (30 / 100))) :=
  (C2_amended_stop_requires_percentage ⟨70, 30, true, 3, 2, false, 0, 10⟩
    ⟨-70, 3, 3, 3, 1000, 930⟩ 85).1 (by decide)

/-- Claim C5: the take-profit check compares the session profit against
the threshold rebased from the percentage of the initial balance
(`initialBalance * takeProfitPct / 100`), never the raw percentage; it
fires on a trade if and only if the cumulative session profit has reached
that threshold, hence exactly on the first crossing trade and never
before. -/
theorem C5_take_profit_threshold :
    (∀ (cfg : TMConfig) (st : TMBotState) (payout : ℚ),
      ((simulateTradeResult cfg st true payout).result =
          TradeResult.takeProfitReached ↔
        (simulateTradeResult cfg st true payout).state.session_profit ≥
          st.initial_balance * (cfg.take_profit / 100))) ∧
    (∀ (cfg : SCConfig) (st : SCState), st.stopEventSet = false →
      st.martingale_level = 0 →
      (((shouldContinueTrading cfg st).tpEvaluated = true ∧
        (shouldContinueTrading cfg st).slEvaluated = false ∧
        (shouldContinueTrading cfg st).keepTrading = false) ↔
        st.session_profit ≥ st.initial_balance * (cfg.take_profit / 100))) ∧
    (∀ (cfg : SCConfig) (initB : ℚ) (ps : List ℚ) (n : ℕ),
      (ps.take n).sum ≥ initB * (cfg.take_profit / 100) →
      (∀ k < n, (ps.take k).sum < initB * (cfg.take_profit / 100)) →
      ((shouldContinueTrading cfg ⟨false, 0, (ps.take n).sum, initB⟩).tpEvaluated = true ∧
        (shouldContinueTrading cfg ⟨false, 0, (ps.take n).sum, initB⟩).slEvaluated = false ∧
        (shouldContinueTrading cfg ⟨false, 0, (ps.take n).sum, initB⟩).keepTrading = false) ∧
      ∀ k < n,
        ¬((shouldContinueTrading cfg ⟨false, 0, (ps.take k).sum, initB⟩).tpEvaluated = true ∧
          (shouldContinueTrading cfg ⟨false, 0, (ps.take k).sum, initB⟩).slEvaluated = false ∧
          (shouldContinueTrading cfg ⟨false, 0, (ps.take k).sum, initB⟩).keepTrading = false)) := by
  have key : ∀ (cfg : SCConfig) (st : SCState), st.stopEventSet = false →
      st.martingale_level = 0 →
      (((shouldContinueTrading cfg st).tpEvaluated = true ∧
        (shouldContinueTrading cfg st).slEvaluated = false ∧
        (shouldContinueTrading cfg st).keepTrading = false) ↔
        st.session_profit ≥ st.initial_balance * (cfg.take_profit / 100)) := by
    intro cfg st h1 h2
    simp only [shouldContinueTrading, h1, Bool.false_eq_true, if_false, h2,
      Nat.lt_irrefl, gt_iff_lt]
    by_cases htp : st.session_profit ≥ st.initial_balance * (cfg.take_profit / 100)
    · rw [if_pos htp]
      split <;> simp [htp]
    · rw [if_neg htp]
      split
      · split <;> simp [htp]
      · simp [htp]
  refine ⟨?_, key, ?_⟩
  · intro cfg st payout
    simp only [simulateTradeResult, if_true]
    split
    · next h => exact Iff.intro (fun _ => h) (fun _ => rfl)
    · next h =>
      refine Iff.intro (fun hh => ?_) (fun hge => absurd hge h)
      exact nomatch hh
  · intro cfg initB ps n hn hk
    refine ⟨(key cfg ⟨false, 0, (ps.take n).sum, initB⟩ rfl rfl).2 hn,
      fun k hkn htr => ?_⟩
    exact absurd ((key cfg ⟨false, 0, (ps.take k).sum, initB⟩ rfl rfl).1 htr)
      (not_le.mpr (hk k hkn))

/-- Witness for C5: with take-profit 70% of a $1000 initial balance, a
win that lifts the session profit to $700 reports `take_profit_reached`;
with per-trade profits `[400, 400]` the check fires at the second trade
(cumulative $800) and not at the earlier prefixes ($0, $400). -/
theorem C5_witness :
    ((simulateTradeResult ⟨70, 30, false, 3, 2, false, 0, 10⟩
        ⟨691.5, 5, 0, 0, 1000, 1691.5⟩ true 85).result =
        TradeResult.takeProfitReached ↔
      (simulateTradeResult ⟨70, 30, false, 3, 2, false, 0, 10⟩
        ⟨691.5, 5, 0, 0, 1000, 1691.5⟩ true 85).state.session_profit ≥
        (1000 : ℚ) * (70 / 100)) ∧
    (((shouldContinueTrading ⟨true, 70, 30⟩
        ⟨false, 0, ([(400 : ℚ), 400].take 2).sum, 1000⟩).tpEvaluated = true ∧
      (shouldContinueTrading ⟨true, 70, 30⟩
        ⟨false, 0, ([(400 : ℚ), 400].take 2).sum, 1000⟩).slEvaluated = false ∧
      (shouldContinueTrading ⟨true, 70, 30⟩
        ⟨false, 0, ([(400 : ℚ), 400].take 2).sum, 1000⟩).keepTrading = false) ∧
      ∀ k < 2,
        ¬((shouldContinueTrading ⟨true, 70, 30⟩
            ⟨false, 0, ([(400 : ℚ), 400].take k).sum, 1000⟩).tpEvaluated = true ∧
          (shouldContinueTrading ⟨true, 70, 30⟩
            ⟨false, 0, ([(400 : ℚ), 400].take k).sum, 1000⟩).slEvaluated = false ∧
          (shouldContinueTrading ⟨true, 70, 30⟩
            ⟨false, 0, ([(400 : ℚ), 400].take k).sum, 1000⟩).keepTrading = false)) :=
  ⟨C5_take_profit_threshold.1 ⟨70, 30, false, 3, 2, false, 0, 10⟩
      ⟨691.5, 5, 0, 0, 1000, 1691.5⟩ 85,
   C5_take_profit_threshold.2.2 ⟨true, 70, 30⟩ 1000 [400, 400] 2
      (by norm_num)
      (by
        intro k hkn
        interval_cases k <;> norm_num)⟩

/-- Claim C6: a target reached at martingale level 0 makes the engine
pause without setting the stop event in auto mode (and the session
statistics are reset to zero for the restart), while in manual mode the
stop event is set and the bot halts. -/
theorem C6_auto_pauses_manual_stops :
    (∀ (cfg : SCConfig) (st : SCState),
      cfg.auto_mode = true → st.stopEventSet = false → st.martingale_level = 0 →
      (st.session_profit ≥ st.initial_balance * (cfg.take_profit / 100) ∨
        st.session_profit ≤ -(st.initial_balance * (cfg.stop_loss / 100))) →
      (shouldContinueTrading cfg st).keepTrading = false ∧
      (shouldContinueTrading cfg st).stopEventSet = false) ∧
    (∀ (cfg : SCConfig) (st : SCState),
      cfg.auto_mode = false → st.stopEventSet = false → st.martingale_level = 0 →
      (st.session_profit ≥ st.initial_balance * (cfg.take_profit / 100) ∨
        st.session_profit ≤ -(st.initial_balance * (cfg.stop_loss / 100))) →
      (shouldContinueTrading cfg st).keepTrading = false ∧
      (shouldContinueTrading cfg st).stopEventSet = true) ∧
    (∀ st : SLState,
      (resetSessionForRestart st).session_profit = 0 ∧
      (resetSessionForRestart st).session_trades = 0 ∧
      (resetSessionForRestart st).martingale_level = 0 ∧
      (resetSessionForRestart st).consecutive_losses = 0) ∧
    (∀ (cfg : SLConfig) (st : SLState) (w : Bool),
      cfg.auto_mode = true → cfg.auto_restart = true → cfg.continuous_mode = true →
      (simulateTradeResultSL cfg st w).notified ≠ none →
      (simulateTradeResultSL cfg st w).keepTrading = true ∧
      (simulateTradeResultSL cfg st w).state.session_profit = 0 ∧
      (simulateTradeResultSL cfg st w).state.session_trades = 0 ∧
      (simulateTradeResultSL cfg st w).state.martingale_level = 0 ∧
      (simulateTradeResultSL cfg st w).state.consecutive_losses = 0) ∧
    (∀ (cfg : PFConfig) (st : PFState), st.paused = false → st.stopped = false →
      (cfg.auto_mode = true →
        (simulateTakeProfitReached cfg st).paused = true ∧
        (simulateTakeProfitReached cfg st).stopped = false ∧
        (simulateStopLossReached cfg st).paused = true ∧
        (simulateStopLossReached cfg st).stopped = false) ∧
      (cfg.auto_mode = false →
        (simulateTakeProfitReached cfg st).stopped = true ∧
        (simulateTakeProfitReached cfg st).paused = false ∧
        (simulateStopLossReached cfg st).stopped = true ∧
        (simulateStopLossReached cfg st).paused = false)) := by
  have target : ∀ (cfg : SCConfig) (st : SCState),
      st.stopEventSet = false → st.martingale_level = 0 →
      (st.session_profit ≥ st.initial_balance * (cfg.take_profit / 100) ∨
        st.session_profit ≤ -(st.initial_balance * (cfg.stop_loss / 100))) →
      (shouldContinueTrading cfg st).keepTrading = false ∧
      (shouldContinueTrading cfg st).stopEventSet =
        (if cfg.auto_mode = true then false else true) := by
    intro cfg st h1 h2 htarget
    simp only [shouldContinueTrading, h1, Bool.false_eq_true, if_false, h2,
      Nat.lt_irrefl, gt_iff_lt]
    by_cases htp : st.session_profit ≥ st.initial_balance * (cfg.take_profit / 100)
    · rw [if_pos htp]
      split <;> exact ⟨rfl, rfl⟩
    · have hsl : st.session_profit ≤ -(st.initial_balance * (cfg.stop_loss / 100)) := by
        rcases htarget with h | h
        · exact absurd h htp
        · exact h
      rw [if_neg htp, if_pos hsl]
      split <;> exact ⟨rfl, rfl⟩
  refine ⟨?_, ?_, ?_, ?_, ?_⟩
  · intro cfg st hA h1 h2 htarget
    obtain ⟨hk, hs⟩ := target cfg st h1 h2 htarget
    exact ⟨hk, by rw [hs, if_pos hA]⟩
  · intro cfg st hA h1 h2 htarget
    obtain ⟨hk, hs⟩ := target cfg st h1 h2 htarget
    refine ⟨hk, ?_⟩
    rw [hs, if_neg (by simp [hA])]
  · intro st
    exact ⟨rfl, rfl, rfl, rfl⟩
  · intro cfg st w hA hR hC hnot
    cases w with
    | true =>
      simp only [simulateTradeResultSL, if_true] at hnot ⊢
      split_ifs at hnot ⊢ with h1 h2
      · exact ⟨rfl, rfl, rfl, rfl, rfl⟩
      · exact absurd ⟨hA, hR, hC⟩ h2
      · exact absurd rfl hnot
    | false =>
      simp only [simulateTradeResultSL, Bool.false_eq_true, if_false] at hnot ⊢
      split_ifs at hnot ⊢ with h1 h2 h3
      · exact absurd rfl hnot
      · exact ⟨rfl, rfl, rfl, rfl, rfl⟩
      · exact absurd ⟨hA, hR, hC⟩ h3
      · exact absurd rfl hnot
  · intro cfg st hP hS
    have htp : st.initial_balance * (cfg.take_profit / 100) + 1 ≥
        st.initial_balance * (cfg.take_profit / 100) := by linarith
    constructor
    · intro hA
      refine ⟨?_, ?_, ?_, ?_⟩ <;>
        simp [simulateTakeProfitReached, simulateStopLossReached, hA, hS, htp]
    · intro hA
      refine ⟨?_, ?_, ?_, ?_⟩ <;>
        simp [simulateTakeProfitReached, simulateStopLossReached, hA, hP, htp]

/-- Witness for C6: take-profit reached at level 0 with $50 profit on a
$1000 balance and 5% target pauses in auto mode (stop event stays clear)
and sets the stop event in manual mode; the restart reset zeroes the
session statistics; an auto-restart target event resets and continues; the
pause-system mock pauses in auto mode. -/
theorem C6_witness :
    ((shouldContinueTrading ⟨true, 5, 10⟩ ⟨false, 0, 50, 1000⟩).keepTrading = false ∧
      (shouldContinueTrading ⟨true, 5, 10⟩ ⟨false, 0, 50, 1000⟩).stopEventSet = false) ∧
    ((shouldContinueTrading ⟨false, 5, 10⟩ ⟨false, 0, 50, 1000⟩).keepTrading = false ∧
      (shouldContinueTrading ⟨false, 5, 10⟩ ⟨false, 0, 50, 1000⟩).stopEventSet = true) ∧
    ((resetSessionForRestart ⟨-100, 7, 2, 2, false, 1000⟩).session_profit = 0 ∧
      (resetSessionForRestart ⟨-100, 7, 2, 2, false, 1000⟩).session_trades = 0 ∧
      (resetSessionForRestart ⟨-100, 7, 2, 2, false, 1000⟩).martingale_level = 0 ∧
      (resetSessionForRestart ⟨-100, 7, 2, 2, false, 1000⟩).consecutive_losses = 0) ∧
    ((simulateTradeResultSL ⟨5, 10, true, 3, true, true, true, 10, 2.2⟩
        ⟨45, 1, 0, 0, false, 1000⟩ true).keepTrading = true ∧
      (simulateTradeResultSL ⟨5, 10, true, 3, true, true, true, 10, 2.2⟩
        ⟨45, 1, 0, 0, false, 1000⟩ true).state.session_profit = 0 ∧
      (simulateTradeResultSL ⟨5, 10, true, 3, true, true, true, 10, 2.2⟩
        ⟨45, 1, 0, 0, false, 1000⟩ true).state.session_trades = 0 ∧
      (simulateTradeResultSL ⟨5, 10, true, 3, true, true, true, 10, 2.2⟩
        ⟨45, 1, 0, 0, false, 1000⟩ true).state.martingale_level = 0 ∧
      (simulateTradeResultSL ⟨5, 10, true, 3, true, true, true, 10, 2.2⟩
        ⟨45, 1, 0, 0, false, 1000⟩ true).state.consecutive_losses = 0) ∧
    ((simulateTakeProfitReached ⟨true, 5, 3⟩ ⟨0, 0, 1000, false, false⟩).paused = true ∧
      (simulateTakeProfitReached ⟨true, 5, 3⟩ ⟨0, 0, 1000, false, false⟩).stopped = false ∧
      (simulateStopLossReached ⟨true, 5, 3⟩ ⟨0, 0, 1000, false, false⟩).paused = true ∧
      (simulateStopLossReached ⟨true, 5, 3⟩ ⟨0, 0, 1000, false, false⟩).stopped = false) :=
  ⟨C6_auto_pauses_manual_stops.1 ⟨true, 5, 10⟩ ⟨false, 0, 50, 1000⟩ rfl rfl rfl
      (Or.inl (by norm_num)),
   C6_auto_pauses_manual_stops.2.1 ⟨false, 5, 10⟩ ⟨false, 0, 50, 1000⟩ rfl rfl rfl
      (Or.inl (by norm_num)),
   C6_auto_pauses_manual_stops.2.2.1 ⟨-100, 7, 2, 2, false, 1000⟩,
   C6_auto_pauses_manual_stops.2.2.2.1 ⟨5, 10, true, 3, true, true, true, 10, 2.2⟩
      ⟨45, 1, 0, 0, false, 1000⟩ true rfl rfl rfl
      (by norm_num [simulateTradeResultSL, calculateTradeAmountSL]; decide),
   (C6_auto_pauses_manual_stops.2.2.2.2 ⟨true, 5, 3⟩ ⟨0, 0, 1000, false, false⟩
      rfl rfl).1 rfl⟩

/-- Counterexample to claim C7 as stated: the claim quantifies over every
configuration, but for a manual-mode configuration with enabled sessions
at 09:00 (540) and 14:00 (840) and `now = 10:00` (600) the computation
returns nothing scheduled instead of today's 14:00 session — the
operating-mode guard runs before any session is considered. -/
theorem C7_counterexample :
    ("afternoon", 840) ∈
      scheduleSessions ⟨"manual", some 540, some 840, none, true, true, false⟩ ∧
    600 < 840 ∧
    getNextSchedule ⟨"manual", some 540, some 840, none, true, true, false⟩ 600 =
      NextSchedule.notScheduled := by
  exact ⟨by decide, by decide, by decide⟩

/-- Claim C7 (amended): for a configuration whose operating mode is not
`auto`, the next-session computation reports nothing scheduled regardless
of the sessions and the current time; in auto mode it sorts the enabled
sessions ascending and returns the enabled session with the earliest
start strictly after the current time today when one exists, otherwise,
when any enabled session exists, the one with the earliest start, for
tomorrow. -/
theorem C7_next_session_start :
    (∀ (cfg : ScheduleConfig) (now : ℕ), cfg.operation_mode ≠ "auto" →
      getNextSchedule cfg now = NextSchedule.notScheduled) ∧
    (∀ (cfg : ScheduleConfig) (now : ℕ), cfg.operation_mode = "auto" →
      (∀ s, getNextSchedule cfg now = NextSchedule.today s →
        s ∈ scheduleSessions cfg ∧ now < s.2 ∧
        ∀ t ∈ scheduleSessions cfg, now < t.2 → s.2 ≤ t.2) ∧
      (∀ s, getNextSchedule cfg now = NextSchedule.tomorrow s →
        s ∈ scheduleSessions cfg ∧ (∀ t ∈ scheduleSessions cfg, t.2 ≤ now) ∧
        ∀ t ∈ scheduleSessions cfg, s.2 ≤ t.2) ∧
      ((∃ t ∈ scheduleSessions cfg, now < t.2) →
        ∃ s, getNextSchedule cfg now = NextSchedule.today s) ∧
      (scheduleSessions cfg ≠ [] → (∀ t ∈ scheduleSessions cfg, t.2 ≤ now) →
        ∃ s, getNextSchedule cfg now = NextSchedule.tomorrow s)) := by
  constructor
  · intro cfg now h
    unfold getNextSchedule
    rw [if_pos h]
  intro cfg now hmode
  have hsorted := List.sorted_insertionSort sessLE (scheduleSessions cfg)
  have hnot : ¬cfg.operation_mode ≠ "auto" := by simp [hmode]
  have hmem : ∀ x : String × ℕ,
      x ∈ (scheduleSessions cfg).insertionSort sessLE ↔
        x ∈ scheduleSessions cfg := fun _ => List.mem_insertionSort sessLE
  refine ⟨?_, ?_, ?_, ?_⟩
  · intro s hs
    unfold getNextSchedule at hs
    rw [if_neg hnot] at hs
    cases hfind : ((scheduleSessions cfg).insertionSort sessLE).find?
        (fun t => now < t.2) with
    | some x =>
      rw [hfind] at hs
      obtain rfl : x = s := by injection hs
      obtain ⟨hm, hlt, hmin⟩ := find_min_of_sorted hsorted hfind
      exact ⟨(hmem x).mp hm, hlt,
        fun t ht hlt' => hmin t ((hmem t).mpr ht) hlt'⟩
    | none =>
      rw [hfind] at hs
      cases hsort : (scheduleSessions cfg).insertionSort sessLE with
      | nil => rw [hsort] at hs; cases hs
      | cons a l => rw [hsort] at hs; cases hs
  · intro s hs
    unfold getNextSchedule at hs
    rw [if_neg hnot] at hs
    cases hfind : ((scheduleSessions cfg).insertionSort sessLE).find?
        (fun t => now < t.2) with
    | some x => rw [hfind] at hs; cases hs
    | none =>
      rw [hfind] at hs
      have hall : ∀ t ∈ (scheduleSessions cfg).insertionSort sessLE, t.2 ≤ now := by
        intro t ht
        have := List.find?_eq_none.mp hfind t ht
        simpa using this
      cases hsort : (scheduleSessions cfg).insertionSort sessLE with
      | nil => rw [hsort] at hs; cases hs
      | cons a l =>
        rw [hsort] at hs
        obtain rfl : a = s := by injection hs
        have hmem' : a ∈ (scheduleSessions cfg).insertionSort sessLE := by
          rw [hsort]; exact List.mem_cons_self a l
        refine ⟨(hmem a).mp hmem', fun t ht => hall t ((hmem t).mpr ht), ?_⟩
        intro t ht
        have ht' : t ∈ (a :: l) := by rw [← hsort]; exact (hmem t).mpr ht
        exact sorted_head_min (hsort ▸ hsorted) t ht'
  · rintro ⟨t, ht, hlt⟩
    unfold getNextSchedule
    rw [if_neg hnot]
    cases hfind : ((scheduleSessions cfg).insertionSort sessLE).find?
        (fun t => now < t.2) with
    | some x => exact ⟨x, rfl⟩
    | none =>
      exfalso
      have := List.find?_eq_none.mp hfind t ((hmem t).mpr ht)
      simp at this
      exact absurd hlt (Nat.not_lt.mpr this)
  · intro hne hall
    unfold getNextSchedule
    rw [if_neg hnot]
    have hfind : ((scheduleSessions cfg).insertionSort sessLE).find?
        (fun t => now < t.2) = none := by
      rw [List.find?_eq_none]
      intro t ht
      simpa using Nat.not_lt.mpr (hall t ((hmem t).mp ht))
    rw [hfind]
    cases hsort : (scheduleSessions cfg).insertionSort sessLE with
    | nil =>
      exfalso
      have := List.length_insertionSort sessLE (scheduleSessions cfg)
      rw [hsort] at this
      exact hne (List.eq_nil_of_length_eq_zero this.symm)
    | cons a l => exact ⟨a, rfl⟩

/-- Witness for the amended C7: a manual-mode configuration yields
nothing scheduled; with enabled sessions at 09:00 (540) and 14:00 (840),
`now = 10:00` (600) yields today's 14:00 session and `now = 15:00` (900)
yields tomorrow's 09:00 session, each being the scheduled minimum. -/
theorem C7_witness :
    (getNextSchedule ⟨"manual", some 540, some 840, none, true, true, false⟩ 0 =
      NextSchedule.notScheduled) ∧
    (getNextSchedule ⟨"auto", some 540, some 840, none, true, true, false⟩ 600 =
      NextSchedule.today ("afternoon", 840)) ∧
    (("afternoon", 840) ∈
        scheduleSessions ⟨"auto", some 540, some 840, none, true, true, false⟩ ∧
      600 < 840 ∧
      ∀ t ∈ scheduleSessions ⟨"auto", some 540, some 840, none, true, true, false⟩,
        600 < t.2 → 840 ≤ t.2) ∧
    (getNextSchedule ⟨"auto", some 540, some 840, none, true, true, false⟩ 900 =
      NextSchedule.tomorrow ("morning", 540)) ∧
    (("morning", 540) ∈
        scheduleSessions ⟨"auto", some 540, some 840, none, true, true, false⟩ ∧
      (∀ t ∈ scheduleSessions ⟨"auto", some 540, some 840, none, true, true, false⟩,
        t.2 ≤ 900) ∧
      ∀ t ∈ scheduleSessions ⟨"auto", some 540, some 840, none, true, true, false⟩,
        540 ≤ t.2) :=
  ⟨C7_next_session_start.1 ⟨"manual", some 540, some 840, none, true, true, false⟩
      0 (by decide),
   by decide,
   (C7_next_session_start.2 ⟨"auto", some 540, some 840, none, true, true, false⟩
      600 rfl).1 ("afternoon", 840) (by decide),
   by decide,
   (C7_next_session_start.2 ⟨"auto", some 540, some 840, none, true, true, false⟩
      900 rfl).2.1 ("morning", 540) (by decide)⟩

/-- Counterexample to claim C8 as stated: with the morning session
configured as 09:00-10:00 (540-600 minutes), at 11:00 (660) the current
time is past the start yet the session-active check returns false — the
configured end time is consulted. -/
theorem C8_counterexample :
    (540 : ℕ) ≤ 660 ∧
    isInSessionTime ⟨540, 600, 840, 900, 1200, 1260⟩ "morning" 660 = false := by
  exact ⟨by decide, by decide⟩

/-- Claim C8 (amended): the session-active check consults both the
configured start and end times: for a known session name it tests the
window of that session, being true within `[start, end]` when the window
does not cross midnight and true after the start or before the end when
it does; it is true at `now = start`, false before the start in a
non-crossing window, false after the end, and false for unknown session
names. -/
theorem C8_amended_window_check (cfg : SessionTimesConfig) (name : String)
    (now s e : ℕ) :
    isInSessionTime cfg "morning" now =
      sessionWindowCheck cfg.morning_start cfg.morning_end now ∧
    isInSessionTime cfg "afternoon" now =
      sessionWindowCheck cfg.afternoon_start cfg.afternoon_end now ∧
    isInSessionTime cfg "night" now =
      sessionWindowCheck cfg.night_start cfg.night_end now ∧
    (name ≠ "morning" → name ≠ "afternoon" → name ≠ "night" →
      isInSessionTime cfg name now = false) ∧
    sessionWindowCheck s e s = true ∧
    (s ≤ e → (sessionWindowCheck s e now = true ↔ s ≤ now ∧ now ≤ e)) ∧
    (e < s → (sessionWindowCheck s e now = true ↔ s ≤ now ∨ now ≤ e)) ∧
    (s ≤ e → now < s → sessionWindowCheck s e now = false) ∧
    (s ≤ e → e < now → sessionWindowCheck s e now = false) := by
  refine ⟨rfl, rfl, rfl, ?_, ?_, ?_, ?_, ?_, ?_⟩
  · intro h1 h2 h3
    simp [isInSessionTime, h1, h2, h3]
  · simp only [sessionWindowCheck]
    split
    · next h => simp [h]
    · next h => simp
  · intro h
    simp [sessionWindowCheck, h]
  · intro h
    rw [sessionWindowCheck, if_neg (by omega)]
    simp [ge_iff_le]
  · intro h hlt
    simp only [sessionWindowCheck, if_pos h]
    simp
    omega
  · intro h hlt
    simp only [sessionWindowCheck, if_pos h]
    simp
    omega

/-- Witness for the amended C8: the 09:00-10:00 morning window is active
at 09:00 and at 09:30, inactive at 08:59, and an unknown session name is
never active. -/
theorem C8_witness :
    isInSessionTime ⟨540, 600, 840, 900, 1200, 1260⟩ "morning" 570 =
      sessionWindowCheck 540 600 570 ∧
    sessionWindowCheck 540 600 540 = true ∧
    (sessionWindowCheck 540 600 570 = true ↔ 540 ≤ 570 ∧ 570 ≤ 600) ∧
    sessionWindowCheck 540 600 539 = false ∧
    sessionWindowCheck 540 600 660 = false ∧
    isInSessionTime ⟨540, 600, 840, 900, 1200, 1260⟩ "lunch" 570 = false :=
  ⟨(C8_amended_window_check ⟨540, 600, 840, 900, 1200, 1260⟩ "lunch" 570 540 600).1,
   (C8_amended_window_check ⟨540, 600, 840, 900, 1200, 1260⟩ "lunch" 570 540 600).2.2.2.2.1,
   (C8_amended_window_check ⟨540, 600, 840, 900, 1200, 1260⟩ "lunch" 570 540 600).2.2.2.2.2.1
     (by decide),
   (C8_amended_window_check ⟨540, 600, 840, 900, 1200, 1260⟩ "lunch" 539 540 600).2.2.2.2.2.2.2.1
     (by decide) (by decide),
   (C8_amended_window_check ⟨540, 600, 840, 900, 1200, 1260⟩ "lunch" 660 540 600).2.2.2.2.2.2.2.2
     (by decide) (by decide),
   (C8_amended_window_check ⟨540, 600, 840, 900, 1200, 1260⟩ "lunch" 570 540 600).2.2.2.1
     (by decide) (by decide) (by decide)⟩

/-- Claim C9: after three consecutive recorded connection failures, the
connection is skipped exactly while less than 600 seconds have passed
since the last failure; once 600 seconds have elapsed the check clears
the entry and stops skipping, and a recorded success clears the entry at
any point. -/
theorem C9_connection_failure_cooldown :
    (∀ (st : ConnState) (t1 t2 t3 now : ℕ),
      (now - t3 < 600 →
        (shouldSkipConnection (recordConnectionFailure (recordConnectionFailure
          (recordConnectionFailure st t1) t2) t3) now).1 = true) ∧
      (600 ≤ now - t3 →
        shouldSkipConnection (recordConnectionFailure (recordConnectionFailure
          (recordConnectionFailure st t1) t2) t3) now = (false, none))) ∧
    (∀ (c l now : ℕ), 3 ≤ c →
      ((shouldSkipConnection (some (c, l)) now).1 = true ↔ now - l < 600)) ∧
    (∀ st : ConnState, recordConnectionSuccess st = none) := by
  refine ⟨?_, ?_, fun _ => rfl⟩
  · intro st t1 t2 t3 now
    have hrec : ∃ c, recordConnectionFailure (recordConnectionFailure
        (recordConnectionFailure st t1) t2) t3 = some (c, t3) ∧ 3 ≤ c := by
      cases st with
      | none => exact ⟨3, rfl, Nat.le_refl 3⟩
      | some p =>
        obtain ⟨c0, l0⟩ := p
        exact ⟨c0 + 1 + 1 + 1, rfl, by omega⟩
    obtain ⟨c, hc, h3⟩ := hrec
    rw [hc]
    constructor
    · intro hlt
      simp [shouldSkipConnection, MAX_FAILURES, FAILURE_COOLDOWN, h3, hlt]
    · intro hge
      simp [shouldSkipConnection, MAX_FAILURES, FAILURE_COOLDOWN, h3,
        Nat.not_lt.mpr hge]
  · intro c l now h3
    rcases Nat.lt_or_ge (now - l) 600 with h | h
    · simp [shouldSkipConnection, MAX_FAILURES, FAILURE_COOLDOWN, h3, h]
    · simp [shouldSkipConnection, MAX_FAILURES, FAILURE_COOLDOWN, h3,
        Nat.not_lt.mpr h, Nat.le_of_lt]

/-- Witness for C9: three failures recorded at times 0, 10 and 20 make
the check skip at time 100 and clear the entry at time 700; an entry with
five failures skips at time 1000 iff less than 600 seconds have passed
since the stamp. -/
theorem C9_witness :
    ((100 : ℕ) - 20 < 600 ∧
      (shouldSkipConnection (recordConnectionFailure (recordConnectionFailure
        (recordConnectionFailure none 0) 10) 20) 100).1 = true) ∧
    ((600 : ℕ) ≤ 700 - 20 ∧
      shouldSkipConnection (recordConnectionFailure (recordConnectionFailure
        (recordConnectionFailure none 0) 10) 20) 700 = (false, none)) ∧
    ((shouldSkipConnection (some (5, 900)) 1000).1 = true ↔ (1000 : ℕ) - 900 < 600) ∧
    recordConnectionSuccess (some (5, 900)) = none :=
  ⟨⟨by decide, (C9_connection_failure_cooldown.1 none 0 10 20 100).1 (by decide)⟩,
   ⟨by decide, (C9_connection_failure_cooldown.1 none 0 10 20 700).2 (by decide)⟩,
   C9_connection_failure_cooldown.2.1 5 900 1000 (by decide),
   C9_connection_failure_cooldown.2.2 (some (5, 900))⟩

/-- Claim C10: starting from a stored configuration whose operating mode
is `auto` or `manual` (as every configuration written by `save_config`
is), a successful `save_config` and the `start_bot` synchronization both
leave `auto_mode` equal to `operation_mode == "auto"`, and the stored
mode stays in {`auto`, `manual`}; a request carrying any other
`operation_mode` value leaves the stored mode unchanged while the other
fields are still updated from the request. -/
theorem C10_auto_mode_operation_mode_sync :
    (∀ (prior : StoredConfig) (req : ConfigRequest) (cfg : StoredConfig),
      (prior.operation_mode = "auto" ∨ prior.operation_mode = "manual") →
      saveConfig prior req = some cfg →
      (cfg.auto_mode = true ↔ cfg.operation_mode = "auto") ∧
      (cfg.operation_mode = "auto" ∨ cfg.operation_mode = "manual")) ∧
    (∀ cfg : StoredConfig,
      (cfg.operation_mode = "auto" ∨ cfg.operation_mode = "manual") →
      ((startBotSync cfg).auto_mode = true ↔
        (startBotSync cfg).operation_mode = "auto")) ∧
    (∀ (prior : StoredConfig) (req : ConfigRequest) (cfg : StoredConfig)
        (om : String),
      req.operation_mode = some om → om ≠ "auto" → om ≠ "manual" →
      saveConfig prior req = some cfg →
      cfg.operation_mode = prior.operation_mode ∧
      cfg.trade_amount = req.trade_amount.getD prior.trade_amount ∧
      cfg.take_profit = req.take_profit.getD prior.take_profit ∧
      cfg.martingale_enabled = req.martingale_enabled.getD prior.martingale_enabled) := by
  refine ⟨?_, ?_, ?_⟩
  · intro prior req cfg hprior hsave
    simp only [saveConfig] at hsave
    split at hsave
    case isFalse => exact absurd hsave (by simp)
    case isTrue hvalid =>
      obtain rfl : _ = cfg := Option.some_injective _ hsave
      by_cases hc : req.operation_mode.getD prior.operation_mode = "auto" ∨
          req.operation_mode.getD prior.operation_mode = "manual"
      · rw [if_pos hc]
        rcases hc with h | h <;> simp [h]
      · rw [if_neg hc]
        rcases hprior with h | h <;> simp [h]
  · intro cfg hmode
    unfold startBotSync
    rcases hmode with h | h
    · by_cases ha : cfg.auto_mode = true
      · rw [if_neg (by simp [ha]), if_neg (by simp [h])]
        simp [ha, h]
      · rw [if_pos ⟨h, by simpa using ha⟩]
        simp [h]
    · by_cases ha : cfg.auto_mode = true
      · rw [if_neg (by simp [h]), if_pos ⟨h, ha⟩]
        simp [h]
      · rw [if_neg (by simp [h]), if_neg (by simp [ha])]
        simp [ha, h]
  · intro prior req cfg om hreq h1 h2 hsave
    simp only [saveConfig] at hsave
    split at hsave
    case isFalse => exact absurd hsave (by simp)
    case isTrue hvalid =>
      obtain rfl : _ = cfg := Option.some_injective _ hsave
      rw [hreq, Option.getD_some,
        if_neg (show ¬(om = "auto" ∨ om = "manual") from fun hmem => hmem.elim h1 h2)]
      split
      · exact ⟨rfl, rfl, rfl, rfl⟩
      · split
        · exact ⟨rfl, rfl, rfl, rfl⟩
        · exact ⟨rfl, rfl, rfl, rfl⟩

/-- Witness for C10: saving over a manual-mode configuration with a
request that switches to auto mode yields a synchronized configuration;
the start-bot synchronization fixes a desynchronized manual
configuration; a request with mode `turbo` keeps the stored mode while
updating the trade amount. -/
theorem C10_witness :
    (∀ cfg : StoredConfig,
      saveConfig ⟨"manual", false, 10, 70, true⟩ ⟨some "auto", some 25, none, none⟩ =
        some cfg →
      (cfg.auto_mode = true ↔ cfg.operation_mode = "auto") ∧
      (cfg.operation_mode = "auto" ∨ cfg.operation_mode = "manual")) ∧
    ((startBotSync ⟨"manual", true, 10, 70, true⟩).auto_mode = true ↔
      (startBotSync ⟨"manual", true, 10, 70, true⟩).operation_mode = "auto") ∧
    (∀ cfg : StoredConfig,
      saveConfig ⟨"manual", false, 10, 70, true⟩ ⟨some "turbo", some 25, none, none⟩ =
        some cfg →
      cfg.operation_mode = "manual" ∧
      cfg.trade_amount = (some (25 : ℚ)).getD 10) :=
  ⟨fun cfg hsave =>
    C10_auto_mode_operation_mode_sync.1 ⟨"manual", false, 10, 70, true⟩
      ⟨some "auto", some 25, none, none⟩ cfg (Or.inr rfl) hsave,
   C10_auto_mode_operation_mode_sync.2.1 ⟨"manual", true, 10, 70, true⟩ (Or.inr rfl),
   fun cfg hsave =>
    ⟨(C10_auto_mode_operation_mode_sync.2.2 ⟨"manual", false, 10, 70, true⟩
        ⟨some "turbo", some 25, none, none⟩ cfg "turbo" rfl (by decide) (by decide)
        hsave).1,
     (C10_auto_mode_operation_mode_sync.2.2 ⟨"manual", false, 10, 70, true⟩
        ⟨some "turbo", some 25, none, none⟩ cfg "turbo" rfl (by decide) (by decide)
        hsave).2.1⟩⟩

end TradingEngine
